import Mathlib

/-!
Verification of the job-search CLI (`src/job_search.py`).

The program has three parts, all embedded below:
  * a credential store (`save_api_key`, `load_api_key`, `remove_api_key`,
    `get_api_key`) persisting one secret in `~/.job_search/config.json`;
  * a search orchestrator (`search_jobs`) that builds one chat request,
    sends it to the remote service and renders the typed response blocks;
  * CLI dispatch in `main` on the first command-line argument.

The file system is modelled as the state of the single config file: absent,
or present with content that either parses as JSON or does not.  Printing is
modelled as the ordered list of strings passed to `print`; `sys.exit(1)` as
an explicit exit result.  The remote call is the one external effect, so its
outcome (content blocks, authentication error, or other exception) is a
parameter of `search_jobs`.
-/

/-- JSON values, as produced by Python's `json.load`.  An object keeps its
key/value pairs as a list; Python's parser keeps the last occurrence of a
duplicated key, which the lookup below mirrors. -/
inductive Json where
  | null
  | bool (b : Bool)
  | num (n : Int)
  | str (s : String)
  | arr (xs : List Json)
  | obj (kvs : List (String × Json))

/-- Python truthiness of a value decoded from JSON (`if not api_key`). -/
def Json.falsy : Json → Bool
  | .null => true
  | .bool b => !b
  | .num n => n == 0
  | .str s => s == ""
  | .arr xs => xs.isEmpty
  | .obj kvs => kvs.isEmpty

/-- Whether a JSON value is an object (a Python `dict`, the only values on
which `.get` does not raise `AttributeError`). -/
def Json.isObj : Json → Bool
  | .obj _ => true
  | _ => false

/-- Content of the config file: either text that parses as JSON, or text
that `json.load` rejects. -/
inductive FileContent where
  | json (j : Json)
  | invalid (raw : String)

/-- State of `CONFIG_FILE`: `none` when the file does not exist. -/
abbrev FS := Option FileContent

/-- `dict.get` on the pairs of a parsed JSON object: the parser kept the
last occurrence of each key, so the lookup returns the last match. -/
def lookupLast (kvs : List (String × Json)) (k : String) : Option Json :=
  ((kvs.filter (fun kv => kv.1 == k)).getLast?).map (fun kv => kv.2)

/-- `save_api_key(api_key)` (job_search.py:23-29): writes
`{"api_key": api_key}` to the config file and prints a confirmation.
Returns the new file state and the printed lines.  (`ensure_config_dir`
only creates the containing directory and is absorbed into the write.) -/
def save_api_key (api_key : String) (_fs : FS) : FS × List String :=
  (some (.json (.obj [("api_key", .str api_key)])),
   ["✓ API key saved successfully!"])

/-- `load_api_key()` (job_search.py:32-41): `None` if the file does not
exist; otherwise parse it and return `config.get("api_key")`, with the bare
`except:` turning any failure (unparsable text, or `.get` on a non-dict)
into `None`.  A stored JSON `null` and a missing key both come back as the
Python `None` object, hence both map to `none`. -/
def load_api_key (fs : FS) : Option Json :=
  match fs with
  | none => none
  | some (.invalid _) => none
  | some (.json j) =>
    match j with
    | .obj kvs =>
      match lookupLast kvs "api_key" with
      | some .null => none
      | some v => some v
      | none => none
    | _ => none

/-- `remove_api_key()` (job_search.py:44-50): unlink the file if it exists
and report which case happened. -/
def remove_api_key (fs : FS) : FS × List String :=
  match fs with
  | some _ => (none, ["✓ API key removed successfully!"])
  | none => (none, ["No API key found to remove."])

/-- Python's whitespace set for `str.strip()`: space, tab, newline,
carriage return, vertical tab, form feed. -/
def pyIsSpace (c : Char) : Bool :=
  c == ' ' || c == '\t' || c == '\n' || c == '\r' || c == '\x0b' || c == '\x0c'

/-- Python's `str.strip()`: drop leading and trailing whitespace. -/
def pyStrip (s : String) : String :=
  ⟨((s.data.dropWhile pyIsSpace).reverse.dropWhile pyIsSpace).reverse⟩

/-- `get_api_key()` (job_search.py:53-62): return the loaded key when it is
truthy; otherwise prompt the operator, strip the reply, save it when
non-empty, and return it.  `userInput` is the operator's raw reply; the
third component records whether the prompt was shown. -/
def get_api_key (fs : FS) (userInput : String) : Json × FS × Bool :=
  let loaded := load_api_key fs
  let truthy := match loaded with
    | some v => !v.falsy
    | none => false
  if truthy then
    (loaded.getD .null, fs, false)
  else
    let k := pyStrip userInput
    if k == "" then (.str k, fs, true)
    else (.str k, (save_api_key k fs).1, true)

/-- Whether `load_api_key` gives the caller something falsy (Python's
`if not api_key` succeeds): the file is absent/unreadable, or the stored
value itself is falsy (e.g. the empty string). -/
def loadedFalsy (fs : FS) : Bool :=
  match load_api_key fs with
  | some v => v.falsy
  | none => true

/-- One segment of the remote response: a text block carrying displayable
content, or any other typed block (tool use metadata etc.), which the loop
in job_search.py:103-105 ignores. -/
inductive Block where
  | text (t : String)
  | other (tag : String)

/-- Outcome of the remote call in `search_jobs`: a response made of typed
blocks, an `anthropic.AuthenticationError`, or any other exception with its
`str(e)` text. -/
inductive ApiOutcome where
  | ok (content : List Block)
  | authError
  | otherError (msg : String)

/-- How an invocation ends: fall through normally, or `sys.exit(code)`. -/
inductive ExitResult where
  | normal
  | exit (code : Nat)
deriving DecidableEq

/-- A chat message of the request. -/
structure Message where
  role : String
  content : String
deriving DecidableEq

/-- A declared tool capability of the request. -/
structure ToolSpec where
  type : String
  name : String
deriving DecidableEq

/-- The request passed to `client.messages.create` (job_search.py:76-99). -/
structure Request where
  model : String
  max_tokens : Nat
  tools : List ToolSpec
  messages : List Message
deriving DecidableEq

/-- The user-message content composed at job_search.py:88-96 (the f-string,
whitespace included). -/
def promptContent (keywords location : String) : String :=
  "Search for current job openings for '" ++ keywords ++ "' in or near '" ++
    location ++ "'. \n                    \nPlease find recent job listings and provide:\n" ++
    "1. Job title and company name\n2. Location\n3. Brief description or key requirements\n" ++
    "4. Link to apply (if available)\n\nFormat the results in a clear, easy-to-read way. " ++
    "Focus on the most relevant and recent postings."

/-- The request built by `search_jobs` before sending. -/
def buildRequest (keywords location : String) : Request :=
  { model := "claude-sonnet-4-20250514"
    max_tokens := 4000
    tools := [{ type := "web_search_20250305", name := "web_search" }]
    messages := [{ role := "user", content := promptContent keywords location }] }

/-- The line printed on entry to `search_jobs` (job_search.py:67). -/
def searchingLine (keywords location : String) : String :=
  "\n🔍 Searching for '" ++ keywords ++ "' jobs near " ++ location ++ "...\n"

/-- The separator `"=" * 80`. -/
def sep80 : String := String.mk (List.replicate 80 '=')

/-- Contents of the text blocks of a response, in response order (the
`full_response` list built at job_search.py:102-105). -/
def textContents (blocks : List Block) : List String :=
  blocks.filterMap fun b =>
    match b with
    | .text t => some t
    | .other _ => none

/-- `search_jobs(keywords, location, api_key)` (job_search.py:65-122) given
the outcome of the remote call: returns the printed lines and the exit
result.  `if result:` on the joined string selects the framed block or the
notice; the two `except` arms print their messages and `sys.exit(1)`. -/
def search_jobs (keywords location : String) (outcome : ApiOutcome) :
    List String × ExitResult :=
  let lead := searchingLine keywords location
  match outcome with
  | .ok blocks =>
    let result := String.intercalate "\n" (textContents blocks)
    if result == "" then
      ([lead, "No results found. Try different keywords or location."], .normal)
    else
      ([lead, sep80, result, sep80], .normal)
  | .authError =>
    ([lead, "\n❌ Error: Invalid API key. Please check your API key and try again.",
      "You can reset your API key with: python job_search.py --reset-key"], .exit 1)
  | .otherError msg =>
    ([lead, "\n❌ Error: " ++ msg], .exit 1)

/-- `needle` occurs as a literal substring of `hay`. -/
def strContains (hay needle : String) : Prop :=
  ∃ a b : String, hay = a ++ needle ++ b

/-- Python's `str.lower()` as used on `sys.argv[1]` (ASCII lowering). -/
def pyLower (s : String) : String :=
  ⟨s.data.map Char.toLower⟩

/-- The usage text printed by `print_help` (job_search.py:127-144). -/
def help_text : String :=
  "\nJob Search Tool - Usage:\n========================\n\nSearch for jobs:\n" ++
    "    python job_search.py\n\nManage API key:\n" ++
    "    --save-key          Save or update your Anthropic API key\n" ++
    "    --reset-key         Remove saved API key\n" ++
    "    --help              Show this help message\n\nExamples:\n" ++
    "    python job_search.py\n    python job_search.py --save-key\n" ++
    "    python job_search.py --reset-key\n"

/-- The action `main` selects from the first command-line argument. -/
inductive CliAction where
  | help
  | saveKey
  | resetKey
  | unknown (lowered : String)
deriving DecidableEq

/-- The dispatch of job_search.py:150-167: lower the argument, then compare
against the recognized flags. -/
def dispatchArg (arg : String) : CliAction :=
  let a := pyLower arg
  if a == "--help" || a == "-h" then .help
  else if a == "--save-key" then .saveKey
  else if a == "--reset-key" then .resetKey
  else .unknown a

/-- Observable outcome of one `main` invocation that received an argument:
the printed lines, the process exit code, whether the credential store was
read, and whether a search ran. -/
structure MainResult where
  output : List String
  exitCode : Nat
  readStore : Bool
  ranSearch : Bool
deriving DecidableEq

/-- The argument-handling branch of `main` (job_search.py:150-170).  Every
arm returns (exit code 0) without running a search; only `--reset-key`
touches the credential store (its existence check).  `userInput` is the
operator's reply to the `--save-key` prompt (unused by the other arms). -/
def main_with_arg (arg : String) (userInput : String) (fs : FS) : MainResult × FS :=
  match dispatchArg arg with
  | .help =>
    ({ output := [help_text], exitCode := 0, readStore := false, ranSearch := false }, fs)
  | .saveKey =>
    let k := pyStrip userInput
    if k == "" then
      ({ output := ["Enter your Anthropic API key:", "No API key entered."],
         exitCode := 0, readStore := false, ranSearch := false }, fs)
    else
      ({ output := "Enter your Anthropic API key:" :: (save_api_key k fs).2,
         exitCode := 0, readStore := false, ranSearch := false }, (save_api_key k fs).1)
  | .resetKey =>
    ({ output := (remove_api_key fs).2, exitCode := 0, readStore := true,
       ranSearch := false }, (remove_api_key fs).1)
  | .unknown a =>
    ({ output := ["Unknown argument: " ++ a, "Use --help to see available options."],
       exitCode := 0, readStore := false, ranSearch := false }, fs)

/-- C1: for every secret string and every prior file state, saving the
secret and then loading returns exactly the saved secret. -/
theorem save_load_roundtrip (k : String) (fs : FS) :
    load_api_key (save_api_key k fs).1 = some (Json.str k) ∧
    (save_api_key k fs).1 = some (.json (.obj [("api_key", .str k)])) := by
  exact ⟨rfl, rfl⟩

/-- C2: `load_api_key` is a total function (it never raises): it returns
the stored secret when the file exists and parses to a config holding one,
and `none` when the file is absent or its content does not parse. -/
theorem load_total_and_absent_on_bad_state (raw s : String) (kvs : List (String × Json)) :
    load_api_key none = none ∧
    load_api_key (some (.invalid raw)) = none ∧
    load_api_key (some (.json (.obj (kvs ++ [("api_key", .str s)])))) = some (.str s) := by
  refine ⟨rfl, rfl, ?_⟩
  simp [load_api_key, lookupLast, List.filter_append]

/-- C9: valid JSON that is not a mapping, or a mapping without an
`"api_key"` field, makes `load_api_key` return `none` (the bare `except:`
swallows the `AttributeError`, and `dict.get` defaults to `None`). -/
theorem load_none_on_nonmapping_or_missing_key :
    (∀ j : Json, j.isObj = false → load_api_key (some (.json j)) = none) ∧
    (∀ kvs : List (String × Json), lookupLast kvs "api_key" = none →
      load_api_key (some (.json (.obj kvs))) = none) := by
  constructor
  · intro j hj
    cases j <;> simp_all [load_api_key, Json.isObj]
  · intro kvs h
    simp [load_api_key, h]

/-- C9 witness: a JSON array and a mapping without `"api_key"` both load
as absent. -/
theorem load_none_on_nonmapping_or_missing_key_witness :
    load_api_key (some (.json (.arr [.str "x"]))) = none ∧
    load_api_key (some (.json (.obj [("other", .str "x")]))) = none :=
  ⟨load_none_on_nonmapping_or_missing_key.1 (.arr [.str "x"]) rfl,
   load_none_on_nonmapping_or_missing_key.2 [("other", .str "x")] rfl⟩

/-- C6: removing deletes the file (so a subsequent load is absent) and
reports the deletion when the file exists; with no file it reports that
nothing was stored and leaves the state unchanged. -/
theorem remove_deletes_and_is_idempotent :
    remove_api_key none = (none, ["No API key found to remove."]) ∧
    (∀ c : FileContent,
      remove_api_key (some c) = (none, ["✓ API key removed successfully!"]) ∧
      load_api_key (remove_api_key (some c)).1 = none) := by
  exact ⟨rfl, fun c => ⟨rfl, rfl⟩⟩

/-- C7: `get_api_key` returns the stored secret without prompting whenever
the store holds a truthy value; otherwise it prompts and persists the
stripped reply exactly when that reply is non-empty, returning it either
way. -/
theorem get_api_key_spec (fs : FS) (input : String) :
    (∀ v : Json, load_api_key fs = some v → v.falsy = false →
      get_api_key fs input = (v, fs, false)) ∧
    (loadedFalsy fs = true →
      (get_api_key fs input).2.2 = true ∧
      (get_api_key fs input).1 = .str (pyStrip input) ∧
      (pyStrip input ≠ "" →
        (get_api_key fs input).2.1 = (save_api_key (pyStrip input) fs).1 ∧
        load_api_key (get_api_key fs input).2.1 = some (.str (pyStrip input))) ∧
      (pyStrip input = "" → (get_api_key fs input).2.1 = fs)) := by
  constructor
  · intro v hv hfalsy
    simp [get_api_key, hv, hfalsy]
  · intro hfalsy
    unfold loadedFalsy at hfalsy
    unfold get_api_key
    cases hload : load_api_key fs with
    | none =>
      simp only [hload]
      by_cases hk : pyStrip input = "" <;>
        simp [hk, load_api_key, save_api_key, lookupLast]
    | some v =>
      rw [hload] at hfalsy
      simp only at hfalsy
      simp only [hload, hfalsy]
      by_cases hk : pyStrip input = "" <;>
        simp [hk, load_api_key, save_api_key, lookupLast]

/-- C3: an authentication failure prints the invalid-key message and the
credential-reset hint and exits with code 1; any other exception prints the
generic message carrying the failure text and exits with code 1; the output
of the generic arm is never the authentication-failure output. -/
theorem search_jobs_error_arms (keywords location msg : String) :
    search_jobs keywords location .authError =
      ([searchingLine keywords location,
        "\n❌ Error: Invalid API key. Please check your API key and try again.",
        "You can reset your API key with: python job_search.py --reset-key"], .exit 1) ∧
    search_jobs keywords location (.otherError msg) =
      ([searchingLine keywords location, "\n❌ Error: " ++ msg], .exit 1) ∧
    (search_jobs keywords location (.otherError msg)).1 ≠
      (search_jobs keywords location .authError).1 := by
  refine ⟨rfl, rfl, ?_⟩
  intro h
  have hlen := congrArg List.length h
  simp [search_jobs] at hlen

/-- C4 as stated is false: a response whose single segment is a text block
with empty content has one (not zero) text segments, yet the program prints
the "no results" notice and no separator-framed block, because `if result:`
tests the joined string, not the segment count. -/
theorem search_jobs_notice_counterexample :
    textContents [Block.text ""] = [""] ∧
    search_jobs "software engineer" "Remote" (.ok [Block.text ""]) =
      ([searchingLine "software engineer" "Remote",
        "No results found. Try different keywords or location."], .normal) := by
  exact ⟨rfl, rfl⟩

/-- C4 amended: the displayed result is the newline-join of the contents of
exactly the text-typed segments, in order, framed by separator lines, when
that join is non-empty; the "no results" notice (with no separator-framed
block) is printed if and only if the join is empty — in particular whenever
the response has zero text segments. -/
theorem search_jobs_ok_output (keywords location : String) (blocks : List Block) :
    (String.intercalate "\n" (textContents blocks) ≠ "" →
      search_jobs keywords location (.ok blocks) =
        ([searchingLine keywords location, sep80,
          String.intercalate "\n" (textContents blocks), sep80], .normal)) ∧
    (String.intercalate "\n" (textContents blocks) = "" →
      search_jobs keywords location (.ok blocks) =
        ([searchingLine keywords location,
          "No results found. Try different keywords or location."], .normal)) ∧
    (textContents blocks = [] →
      String.intercalate "\n" (textContents blocks) = "") := by
  refine ⟨?_, ?_, ?_⟩
  · intro h
    simp [search_jobs, h]
  · intro h
    simp [search_jobs, h]
  · intro h
    rw [h]
    rfl

/-- C4 amended, witness: two non-empty text segments are joined with a
newline and framed; an empty response yields the notice. -/
theorem search_jobs_ok_output_witness :
    search_jobs "data analyst" "Remote" (.ok [.text "Job A details", .other "tool_use",
        .text "Job B details"]) =
      ([searchingLine "data analyst" "Remote", sep80,
        "Job A details\nJob B details", sep80], .normal) ∧
    search_jobs "data analyst" "Remote" (.ok [.other "tool_use"]) =
      ([searchingLine "data analyst" "Remote",
        "No results found. Try different keywords or location."], .normal) := by
  constructor
  · exact (search_jobs_ok_output "data analyst" "Remote"
      [.text "Job A details", .other "tool_use", .text "Job B details"]).1 (by decide)
  · exact (search_jobs_ok_output "data analyst" "Remote" [.other "tool_use"]).2.1 rfl

/-- C5: the composed request consists of a single user-role message whose
content contains the keywords and the location as literal substrings, and
caps the response at 4000 tokens. -/
theorem buildRequest_message_and_budget (keywords location : String) :
    (buildRequest keywords location).max_tokens = 4000 ∧
    (buildRequest keywords location).messages =
      [{ role := "user", content := promptContent keywords location }] ∧
    strContains (promptContent keywords location) keywords ∧
    strContains (promptContent keywords location) location := by
  refine ⟨rfl, rfl, ?_, ?_⟩
  · exact ⟨"Search for current job openings for '",
      "' in or near '" ++ location ++
        "'. \n                    \nPlease find recent job listings and provide:\n" ++
        "1. Job title and company name\n2. Location\n3. Brief description or key requirements\n" ++
        "4. Link to apply (if available)\n\nFormat the results in a clear, easy-to-read way. " ++
        "Focus on the most relevant and recent postings.",
      by simp [promptContent, String.append_assoc]⟩
  · exact ⟨"Search for current job openings for '" ++ keywords ++ "' in or near '",
      "'. \n                    \nPlease find recent job listings and provide:\n" ++
        "1. Job title and company name\n2. Location\n3. Brief description or key requirements\n" ++
        "4. Link to apply (if available)\n\nFormat the results in a clear, easy-to-read way. " ++
        "Focus on the most relevant and recent postings.",
      by simp [promptContent, String.append_assoc]⟩

/-- C7 witness: with a stored key the prompt is skipped and the key
returned; with no file the prompt runs and a non-empty reply is saved. -/
theorem get_api_key_spec_witness :
    get_api_key (some (.json (.obj [("api_key", .str "sk-1")]))) "ignored"
      = (.str "sk-1", some (.json (.obj [("api_key", .str "sk-1")])), false) ∧
    (get_api_key none " sk-2 ").2.2 = true ∧
    (get_api_key none " sk-2 ").1 = .str "sk-2" ∧
    load_api_key (get_api_key none " sk-2 ").2.1 = some (.str "sk-2") := by
  refine ⟨(get_api_key_spec _ "ignored").1 (.str "sk-1") rfl rfl, ?_⟩
  have h := (get_api_key_spec none " sk-2 ").2 rfl
  have htrim : pyStrip " sk-2 " = "sk-2" := by decide
  refine ⟨h.1, ?_, ?_⟩
  · rw [h.2.1, htrim]
  · rw [(h.2.2.1 (by rw [htrim]; decide)).2, htrim]

/-- C8: an argument whose lowering is none of the recognized flags makes
the program print the unknown-argument notice and exit with code 0,
without reading the credential store or running a search, leaving the file
state unchanged. -/
theorem unknown_arg_is_benign (arg input : String) (fs : FS)
    (h1 : pyLower arg ≠ "--help") (h2 : pyLower arg ≠ "-h")
    (h3 : pyLower arg ≠ "--save-key") (h4 : pyLower arg ≠ "--reset-key") :
    main_with_arg arg input fs =
      ({ output := ["Unknown argument: " ++ pyLower arg,
                    "Use --help to see available options."],
         exitCode := 0, readStore := false, ranSearch := false }, fs) := by
  simp [main_with_arg, dispatchArg, h1, h2, h3, h4]

/-- C8 witness: `--frobnicate` is rejected benignly. -/
theorem unknown_arg_is_benign_witness :
    main_with_arg "--frobnicate" "" none =
      ({ output := ["Unknown argument: " ++ pyLower "--frobnicate",
                    "Use --help to see available options."],
         exitCode := 0, readStore := false, ranSearch := false }, none) :=
  unknown_arg_is_benign "--frobnicate" "" none
    (by decide) (by decide) (by decide) (by decide)

/-- C10: dispatch depends only on the lowercased argument — two arguments
with the same lowering select the same action — and each lowercase flag
selects its documented action, so any casing of a flag selects that same
action. -/
theorem dispatch_case_insensitive :
    (∀ a b : String, pyLower a = pyLower b → dispatchArg a = dispatchArg b) ∧
    dispatchArg "--help" = .help ∧ dispatchArg "-h" = .help ∧
    dispatchArg "--save-key" = .saveKey ∧ dispatchArg "--reset-key" = .resetKey := by
  refine ⟨?_, rfl, rfl, rfl, rfl⟩
  intro a b hab
  simp [dispatchArg, hab]

/-- C10 witness: mixed-case flags select the lowercase flags' actions. -/
theorem dispatch_case_insensitive_witness :
    dispatchArg "--HELP" = CliAction.help ∧
    dispatchArg "--Save-Key" = CliAction.saveKey ∧
    dispatchArg "--RESET-key" = CliAction.resetKey :=
  ⟨(dispatch_case_insensitive.1 "--HELP" "--help" (by decide)).trans
      dispatch_case_insensitive.2.1,
   (dispatch_case_insensitive.1 "--Save-Key" "--save-key" (by decide)).trans
      dispatch_case_insensitive.2.2.2.1,
   (dispatch_case_insensitive.1 "--RESET-key" "--reset-key" (by decide)).trans
      dispatch_case_insensitive.2.2.2.2⟩
